import Mathlib

/-!
Verification of `tuitionTable.py`: a tiered tuition-table generator for
Olympic College rates.  The Python source is shallowly embedded below:
Python ints become `Int`, Python floats become `ℚ` (every rate in the
program carries exactly two decimal digits, so all arithmetic performed by
the program is exact in binary64 and agrees with exact rational
arithmetic), the `openpyxl` import is abstracted by a boolean availability
flag, and the written workbook is the value returned by `write_xlsx`.
-/

namespace TuitionTable

/-- A rate set: the four per-credit rates attached to one residency class,
mirroring the inner dictionaries of `TUITION_RATES`. -/
structure RateSet where
  lower_first_10 : ℚ
  lower_after_10 : ℚ
  upper_first_10 : ℚ
  upper_after_10 : ℚ
deriving DecidableEq, Repr

/-- `TUITION_RATES` from the source: a mapping from the residency key to its
rate set; a key other than the two residency classes has no entry. -/
def TUITION_RATES (residency : String) : Option RateSet :=
  if residency = "resident" then
    some { lower_first_10 := 123.94, lower_after_10 := 57.78,
           upper_first_10 := 133.54, upper_after_10 := 67.38 }
  else if residency = "non-resident" then
    some { lower_first_10 := 274.84, lower_after_10 := 208.68,
           upper_first_10 := 284.44, upper_after_10 := 218.28 }
  else
    none

/-- `total_cost(credits, first_10_rate, after_10_rate)`: tiered pricing with
a breakpoint at 10 credits, exactly as in the source. -/
def total_cost (credits : Int) (first_10_rate after_10_rate : ℚ) : ℚ :=
  if credits ≤ 10 then
    (credits : ℚ) * first_10_rate
  else
    10 * first_10_rate + ((credits : ℚ) - 10) * after_10_rate

/-- One spreadsheet data row `[credits, lower_total, upper_total]`. -/
abbrev Row : Type := Int × ℚ × ℚ

/-- `build_rows(max_credits, rates)`: one row per credit count produced by
`range(1, max_credits + 1)`. -/
def build_rows (max_credits : Int) (rates : RateSet) : List Row :=
  (List.range max_credits.toNat).map fun (i : ℕ) =>
    (1 + (i : Int),
     total_cost (1 + (i : Int)) rates.lower_first_10 rates.lower_after_10,
     total_cost (1 + (i : Int)) rates.upper_first_10 rates.upper_after_10)

/-- The header row appended first by `write_xlsx`. -/
def header_labels : List String :=
  ["# of Credits", "Tuition Cost for Lower-Division",
   "Tuition Cost for Upper-Division"]

/-- The `RuntimeError` message raised by `write_xlsx` when importing
`openpyxl` fails. -/
def openpyxl_error_message : String :=
  "openpyxl is required to create .xlsx files. Install it with: pip install openpyxl"

/-- The workbook written by `write_xlsx`: its filename, worksheet title,
header row and data rows.  The currency number format applied to the cost
columns is display-only and leaves the stored values unchanged, so it is
not modelled. -/
structure XlsxFile where
  filename : String
  sheetTitle : String
  header : List String
  dataRows : List Row
deriving DecidableEq, Repr

/-- `write_xlsx(output_filename, rows)`: the `openpyxl` import is abstracted
by an availability flag; when the library is absent the function raises the
`RuntimeError` above, otherwise it saves the workbook under the given
filename. -/
def write_xlsx (openpyxlAvailable : Bool) (output_filename : String)
    (rows : List Row) : Except String XlsxFile :=
  if openpyxlAvailable then
    Except.ok { filename := output_filename, sheetTitle := "Tuition",
                header := header_labels, dataRows := rows }
  else
    Except.error openpyxl_error_message

/-- The CLI arguments after `parse_args` succeeded: `residency` was checked
against the two choices, `max_credits` parsed as an int, and `--output`
defaults to `None` when absent. -/
structure Args where
  residency : String
  max_credits : Int
  output : Option String
deriving DecidableEq, Repr

/-- The observable outcome of one run of `main`: its return code, the lines
printed to standard error and standard output, and the file written
(`none` when no file was produced). -/
structure MainResult where
  exitCode : Int
  stderrLines : List String
  writtenFile : Option XlsxFile
  stdoutLines : List String
deriving DecidableEq, Repr

/-- Two-decimal formatting as in the f-string format `.2f`.  `main` applies
it only to the rate constants, which are exact non-negative cent amounts,
so scaling by 100 is exact and no rounding occurs. -/
def format_2f (q : ℚ) : String :=
  let cents : Int := (q * 100).num / ((q * 100).den : Int)
  toString (cents / 100) ++ "." ++
    (if cents % 100 < 10 then "0" else "") ++ toString (cents % 100)

/-- The second stdout line of `main`, reporting the four rates used. -/
def rates_line (rates : RateSet) : String :=
  "Rates used: lower 1-10=$" ++ format_2f rates.lower_first_10 ++
  ", lower 11+=$" ++ format_2f rates.lower_after_10 ++
  ", upper 1-10=$" ++ format_2f rates.upper_first_10 ++
  ", upper 11+=$" ++ format_2f rates.upper_after_10

/-- `main()`, given already-parsed arguments.  The `none` branch marks the
rate-table lookup that `parse_args` makes unreachable by restricting
`residency` to the two recognised keys.  Python's `if args.output:` tests
truthiness, so both `None` and the empty string fall back to the default
filename pattern. -/
def main (args : Args) (openpyxlAvailable : Bool) : Option MainResult :=
  if args.max_credits < 1 then
    some { exitCode := 2,
           stderrLines := ["Error: max_credits must be at least 1."],
           writtenFile := none, stdoutLines := [] }
  else
    match TUITION_RATES args.residency with
    | none => none
    | some rates =>
      let rows := build_rows args.max_credits rates
      let default_name :=
        "tuition_" ++ args.residency ++ "_1_to_" ++
          toString args.max_credits ++ ".xlsx"
      let output_filename :=
        match args.output with
        | some s => if s = "" then default_name else s
        | none => default_name
      match write_xlsx openpyxlAvailable output_filename rows with
      | Except.error msg =>
        some { exitCode := 1, stderrLines := ["Error: " ++ msg],
               writtenFile := none, stdoutLines := [] }
      | Except.ok file =>
        some { exitCode := 0, stderrLines := [],
               writtenFile := some file,
               stdoutLines := ["Created " ++ output_filename,
                               rates_line rates] }

/-- The filename of the file a run of `main` wrote, if any. -/
def written_filename (r : Option MainResult) : Option String :=
  r.bind fun res => res.writtenFile.map XlsxFile.filename

end TuitionTable

namespace TuitionTable

/-- Claim C1: for credits ≥ 1 and non-negative rates, `total_cost` returns
`credits * firstTierRate` when `credits ≤ 10` (so at the boundary
`credits = 10` only the first-tier rate is used for all 10 units) and
`10 * firstTierRate + (credits - 10) * afterTierRate` when `credits > 10`. -/
theorem total_cost_tiered (credits : Int) (f a : ℚ)
    (_hc : 1 ≤ credits) (_hf : 0 ≤ f) (_ha : 0 ≤ a) :
    (credits ≤ 10 → total_cost credits f a = (credits : ℚ) * f) ∧
    (10 < credits →
      total_cost credits f a = 10 * f + ((credits : ℚ) - 10) * a) := by
  constructor
  · intro h
    simp [total_cost, h]
  · intro h
    simp [total_cost, not_le.mpr h]

theorem total_cost_tiered_witness :
    (1 ≤ (10 : Int) ∧ 0 ≤ (123.94 : ℚ) ∧ 0 ≤ (57.78 : ℚ)) ∧
    (((10 : Int) ≤ 10 → total_cost 10 123.94 57.78 = ((10 : Int) : ℚ) * 123.94) ∧
      (10 < (10 : Int) →
        total_cost 10 123.94 57.78 = 10 * 123.94 + (((10 : Int) : ℚ) - 10) * 57.78)) :=
  ⟨⟨by decide, by norm_num, by norm_num⟩,
   total_cost_tiered 10 123.94 57.78 (by decide) (by norm_num) (by norm_num)⟩

/-- Claim C2: for maxCredits ≥ 1, `build_rows` returns exactly maxCredits
rows, and the row at 0-based index i is
`(i + 1, total_cost (i + 1) lowerRates, total_cost (i + 1) upperRates)`, so
credit counts ascend strictly from 1 with no gaps. -/
theorem build_rows_shape (max_credits : Int) (rates : RateSet)
    (hm : 1 ≤ max_credits) :
    ((build_rows max_credits rates).length : Int) = max_credits ∧
    ∀ i : ℕ, ∀ h : i < (build_rows max_credits rates).length,
      (build_rows max_credits rates).get ⟨i, h⟩ =
        ((1 + i : Int),
         total_cost (1 + i) rates.lower_first_10 rates.lower_after_10,
         total_cost (1 + i) rates.upper_first_10 rates.upper_after_10) := by
  constructor
  · simp only [build_rows, List.length_map, List.length_range]
    exact Int.toNat_of_nonneg (le_trans zero_le_one hm)
  · intro i h
    simp only [build_rows, List.get_eq_getElem, List.getElem_map,
      List.getElem_range]

theorem build_rows_shape_witness :
    (1 : Int) ≤ 2 ∧
    (((build_rows 2 ⟨123.94, 57.78, 133.54, 67.38⟩).length : Int) = 2 ∧
      ∀ i : ℕ,
        ∀ h : i < (build_rows 2 ⟨123.94, 57.78, 133.54, 67.38⟩).length,
        (build_rows 2 ⟨123.94, 57.78, 133.54, 67.38⟩).get ⟨i, h⟩ =
          ((1 + i : Int),
           total_cost (1 + i) 123.94 57.78,
           total_cost (1 + i) 133.54 67.38)) :=
  ⟨by decide, build_rows_shape 2 ⟨123.94, 57.78, 133.54, 67.38⟩ (by decide)⟩

/-- Claim C3: the concrete scenario equalities from the spec hold exactly:
`total_cost(5, 123.94, 57.78) = 619.70`,
`total_cost(10, 123.94, 57.78) = 1239.40`,
`total_cost(12, 123.94, 57.78) = 1354.96`, and
`build_rows(3, resident rates)` is exactly
`[(1, 123.94, 133.54), (2, 247.88, 267.08), (3, 371.82, 400.62)]`. -/
theorem concrete_scenarios :
    total_cost 5 123.94 57.78 = 619.70 ∧
    total_cost 10 123.94 57.78 = 1239.40 ∧
    total_cost 12 123.94 57.78 = 1354.96 ∧
    build_rows 3 ⟨123.94, 57.78, 133.54, 67.38⟩ =
      [(1, 123.94, 133.54), (2, 247.88, 267.08), (3, 371.82, 400.62)] := by
  refine ⟨?_, ?_, ?_, ?_⟩
  · norm_num [total_cost]
  · norm_num [total_cost]
  · norm_num [total_cost]
  · have h3 : (3 : Int).toNat = 3 := rfl
    norm_num [build_rows, total_cost, List.range_succ, h3]

/-- Claim C4: the static rate table maps exactly the two residency classes
to the exact numeric literals of the published fee schedule, and lookup of
any other key fails. -/
theorem tuition_rates_exact :
    TUITION_RATES "resident" = some ⟨123.94, 57.78, 133.54, 67.38⟩ ∧
    TUITION_RATES "non-resident" = some ⟨274.84, 208.68, 284.44, 218.28⟩ ∧
    ∀ k : String, k ≠ "resident" → k ≠ "non-resident" →
      TUITION_RATES k = none := by
  refine ⟨rfl, rfl, ?_⟩
  intro k h1 h2
  simp [TUITION_RATES, h1, h2]

theorem tuition_rates_exact_witness : TUITION_RATES "international" = none :=
  tuition_rates_exact.2.2 "international" (by decide) (by decide)

/-- Claim C5: for fixed non-negative rates, `total_cost` is monotonically
non-decreasing in its credits argument. -/
theorem total_cost_mono (f a : ℚ) (hf : 0 ≤ f) (ha : 0 ≤ a)
    (c1 c2 : Int) (_hc1 : 1 ≤ c1) (h12 : c1 ≤ c2) :
    total_cost c1 f a ≤ total_cost c2 f a := by
  have h12q : (c1 : ℚ) ≤ (c2 : ℚ) := by exact_mod_cast h12
  unfold total_cost
  by_cases hfst : c1 ≤ 10 <;> by_cases hsnd : c2 ≤ 10
  · simp only [if_pos hfst, if_pos hsnd]
    exact mul_le_mul_of_nonneg_right h12q hf
  · have h1q : (c1 : ℚ) ≤ 10 := by exact_mod_cast hfst
    have h2q : (10 : ℚ) < (c2 : ℚ) := by exact_mod_cast not_le.mp hsnd
    simp only [if_pos hfst, if_neg hsnd]
    nlinarith
  · exact absurd (le_trans h12 hsnd) hfst
  · have h1q : (10 : ℚ) < (c1 : ℚ) := by exact_mod_cast not_le.mp hfst
    simp only [if_neg hfst, if_neg hsnd]
    nlinarith

theorem total_cost_mono_witness :
    (0 ≤ (123.94 : ℚ) ∧ 0 ≤ (57.78 : ℚ) ∧ 1 ≤ (5 : Int) ∧ (5 : Int) ≤ 12) ∧
    total_cost 5 123.94 57.78 ≤ total_cost 12 123.94 57.78 :=
  ⟨⟨by norm_num, by norm_num, by decide, by decide⟩,
   total_cost_mono 123.94 57.78 (by norm_num) (by norm_num) 5 12
     (by decide) (by decide)⟩

/-- Claim C9: `build_rows` is deterministic — two calls with equal
arguments return equal row sequences, with no dependence on hidden
state (the embedding is a pure function of its arguments). -/
theorem build_rows_deterministic (m1 m2 : Int) (r1 r2 : RateSet)
    (hm : m1 = m2) (hr : r1 = r2) :
    build_rows m1 r1 = build_rows m2 r2 := by
  rw [hm, hr]

theorem build_rows_deterministic_witness :
    ((3 : Int) = 3 ∧ RateSet.mk 123.94 57.78 133.54 67.38 = ⟨123.94, 57.78, 133.54, 67.38⟩) ∧
    build_rows 3 ⟨123.94, 57.78, 133.54, 67.38⟩ =
      build_rows 3 ⟨123.94, 57.78, 133.54, 67.38⟩ :=
  ⟨⟨rfl, rfl⟩,
   build_rows_deterministic 3 3 ⟨123.94, 57.78, 133.54, 67.38⟩
     ⟨123.94, 57.78, 133.54, 67.38⟩ rfl rfl⟩

/-- Claim C10: `build_rows` is total below the documented precondition:
for maxCredits ≤ 0 it returns the empty sequence (Python's
`range(1, max_credits + 1)` is empty there). -/
theorem build_rows_nonpos_empty (max_credits : Int) (rates : RateSet)
    (hm : max_credits ≤ 0) :
    build_rows max_credits rates = [] := by
  simp [build_rows, Int.toNat_of_nonpos hm]

/-- Claim C6: for a valid residency and `max_credits < 1`, `main` prints
one error line to standard error, returns exit code 2, writes no output
file, and prints nothing to standard output. -/
theorem main_validation_error (args : Args) (b : Bool)
    (_hres : (TUITION_RATES args.residency).isSome)
    (hm : args.max_credits < 1) :
    main args b =
      some ⟨2, ["Error: max_credits must be at least 1."], none, []⟩ := by
  simp [main, hm]

theorem main_validation_error_witness :
    ((TUITION_RATES "resident").isSome ∧ (0 : Int) < 1) ∧
    main ⟨"resident", 0, none⟩ true =
      some ⟨2, ["Error: max_credits must be at least 1."], none, []⟩ :=
  ⟨⟨by decide, by decide⟩,
   main_validation_error ⟨"resident", 0, none⟩ true (by decide) (by decide)⟩

/-- Claim C7: for valid arguments, when `openpyxl` is unavailable `main`
reports the failure as the single stderr line `Error: ` followed by the
installation guidance, returns exit code 1, and writes no output file; its
exit code 1 is distinct from the validation error's exit code 2. -/
theorem main_dependency_error (args : Args)
    (hm : 1 ≤ args.max_credits)
    (hres : (TUITION_RATES args.residency).isSome) :
    main args false =
      some ⟨1, ["Error: " ++ openpyxl_error_message], none, []⟩ ∧
    (1 : Int) ≠ 2 := by
  obtain ⟨rates, hr⟩ := Option.isSome_iff_exists.mp hres
  refine ⟨?_, by decide⟩
  simp [main, hr, write_xlsx, not_lt.mpr hm]

theorem main_dependency_error_witness :
    ((1 : Int) ≤ 5 ∧ (TUITION_RATES "resident").isSome) ∧
    (main ⟨"resident", 5, none⟩ false =
        some ⟨1, ["Error: " ++ openpyxl_error_message], none, []⟩ ∧
      (1 : Int) ≠ 2) :=
  ⟨⟨by decide, by decide⟩,
   main_dependency_error ⟨"resident", 5, none⟩ (by decide) (by decide)⟩

/-- Claim C8 (amended): for valid arguments, when `--output` is absent the
written filename is exactly `tuition_<residency>_1_to_<max_credits>.xlsx`,
and when `--output` is given with a non-empty value that value is used as
the filename; an empty `--output` value falls back to the default pattern
because the source tests `args.output` for truthiness. -/
theorem main_output_filename (args : Args)
    (hm : 1 ≤ args.max_credits)
    (hres : (TUITION_RATES args.residency).isSome) :
    (args.output = none →
      written_filename (main args true) =
        some ("tuition_" ++ args.residency ++ "_1_to_" ++
          toString args.max_credits ++ ".xlsx")) ∧
    (∀ s : String, args.output = some s → s ≠ "" →
      written_filename (main args true) = some s) := by
  obtain ⟨rates, hr⟩ := Option.isSome_iff_exists.mp hres
  have hnl : ¬ args.max_credits < 1 := not_lt.mpr hm
  constructor
  · intro ho
    simp [main, written_filename, hr, hnl, ho, write_xlsx]
  · intro s ho hs
    simp [main, written_filename, hr, hnl, ho, hs, write_xlsx]

theorem main_output_filename_witness :
    ((1 : Int) ≤ 15 ∧ (TUITION_RATES "non-resident").isSome) ∧
    (((⟨"non-resident", 15, none⟩ : Args).output = none →
       written_filename (main ⟨"non-resident", 15, none⟩ true) =
         some ("tuition_" ++ "non-resident" ++ "_1_to_" ++
           toString (15 : Int) ++ ".xlsx")) ∧
     (∀ s : String,
       (⟨"non-resident", 15, none⟩ : Args).output = some s → s ≠ "" →
       written_filename (main ⟨"non-resident", 15, none⟩ true) = some s)) :=
  ⟨⟨by decide, by decide⟩,
   main_output_filename ⟨"non-resident", 15, none⟩ (by decide) (by decide)⟩

/-- Claim C8, counterexample to the unamended statement: invoking with
`--output ""` does not use the given value `""` as the output filename;
the default pattern is used instead. -/
theorem main_output_flag_empty_cex :
    written_filename (main ⟨"resident", 5, some ""⟩ true) =
      some "tuition_resident_1_to_5.xlsx" ∧
    written_filename (main ⟨"resident", 5, some ""⟩ true) ≠ some "" := by
  constructor
  · rfl
  · decide

theorem build_rows_nonpos_empty_witness :
    (-3 : Int) ≤ 0 ∧ build_rows (-3) ⟨123.94, 57.78, 133.54, 67.38⟩ = [] :=
  ⟨by decide, build_rows_nonpos_empty (-3) ⟨123.94, 57.78, 133.54, 67.38⟩ (by decide)⟩

end TuitionTable
